import Mathlib

/-!
Verification of the cutserve event-detection engine.

The Python core (src/python/core/) is shallowly embedded below:
Python floats are modelled as exact rationals, Python ints as integers,
`int()` / numpy `astype(np.int32)` as truncation toward zero, and the
mutable objects (StateMachineContext, the clip list, the energy
calculator) as explicit state passed through pure step functions.
-/

namespace Cutserve

/-- Game states of the detection state machine (state_machine.py, GameState). -/
inductive GameState where
  | SEARCHING
  | LOCKED
  | PROBATION
  | RALLY
deriving DecidableEq

/-- Configuration parameters read by the engine core (config.py, Config).
Python floats are modelled as exact rationals.  File paths, colors,
visualization and inference-speed fields are not read by the embedded
functions and are omitted. -/
structure Config where
  pre_serve_buffer : ℚ
  post_point_buffer : ℚ
  min_occupied_zones : ℤ
  min_hold_duration : ℚ
  min_point_duration : ℚ
  min_low_energy_duration : ℚ
  base_sensitivity : ℚ
  min_dynamic_threshold : ℚ
  max_dynamic_threshold : ℚ
  rally_energy_req : ℚ
  walk_energy_cap : ℚ
  energy_smoothing_factor : ℚ
deriving DecidableEq

/-- The default values of config.py (2.5 = 5/2, 0.3 = 3/10). -/
def defaultConfig : Config where
  pre_serve_buffer := 4
  post_point_buffer := -1
  min_occupied_zones := 2
  min_hold_duration := 5/2
  min_point_duration := 5/2
  min_low_energy_duration := 5/2
  base_sensitivity := 15
  min_dynamic_threshold := 60
  max_dynamic_threshold := 60
  rally_energy_req := 80
  walk_energy_cap := 55
  energy_smoothing_factor := 3/10

/-- Python `int(x)` and numpy `astype(np.int32)`: truncation toward zero. -/
def truncQ (q : ℚ) : ℤ := if 0 ≤ q then ⌊q⌋ else ⌈q⌉

/-- utils.py `clamp`. -/
def clamp (value min_val max_val : ℚ) : ℚ := max min_val (min value max_val)

/-- utils.py `calculate_dynamic_threshold` (lines 208-238): noise floor is the
arithmetic mean of the baseline readings, or the fallback 10.0 when the list
is empty; the result is `noise_floor + base_sensitivity` clamped to the rails. -/
def calculate_dynamic_threshold (baseline_readings : List ℚ)
    (base_sensitivity min_threshold max_threshold : ℚ) : ℚ :=
  let noise_floor : ℚ :=
    if baseline_readings.isEmpty then 10
    else baseline_readings.sum / (baseline_readings.length : ℚ)
  clamp (noise_floor + base_sensitivity) min_threshold max_threshold

/-- A detected clip (state_machine.py, ClipInfo).  `end_` stands for the
Python field `end` (a keyword in Lean). -/
structure ClipInfo where
  start : ℚ
  end_ : ℚ
  tag : String
  confidence : String
  peak_energy : ℤ
deriving DecidableEq

/-- state_machine.py, StateMachineContext, with the Python defaults. -/
structure StateMachineContext where
  state : GameState := GameState.SEARCHING
  frames_held : ℤ := 0
  low_energy_frames : ℤ := 0
  serve_time : ℚ := 0
  clip_peak_energy : ℚ := 0
  baseline_readings : List ℚ := []
  dynamic_threshold : ℚ := 40
deriving DecidableEq

/-- The freshly initialized context (StateMachineContext()). -/
def initCtx : StateMachineContext := {}

/-- The immutable part of a state_machine.py StateMachine object:
its configuration and the video frame rate. -/
structure StateMachine where
  cfg : Config
  fps : ℚ
deriving DecidableEq

/-- `self.frames_start_needed = int(config.min_hold_duration * fps)`. -/
def StateMachine.frames_start_needed (M : StateMachine) : ℤ :=
  truncQ (M.cfg.min_hold_duration * M.fps)

/-- `self.frames_override_needed = int(1.0 * fps)`. -/
def StateMachine.frames_override_needed (M : StateMachine) : ℤ :=
  truncQ (1 * M.fps)

/-- `self.frames_end_needed = int(config.min_low_energy_duration * fps)`. -/
def StateMachine.frames_end_needed (M : StateMachine) : ℤ :=
  truncQ (M.cfg.min_low_energy_duration * M.fps)

/-- ClipClassifier.classify (state_machine.py lines 93-108).  The duration
argument is accepted but not read, exactly as in the source. -/
def classify (cfg : Config) (duration : ℚ) (peak_energy : ℚ) : String × String :=
  if cfg.rally_energy_req < peak_energy then ("Rally", "High")
  else if peak_energy < cfg.walk_energy_cap then ("Noise", "Low")
  else ("Serve", "Medium")

/-- StateMachine._save_clip (state_machine.py lines 288-318): apply the
pre-serve buffer to the start, classify from duration and peak energy,
and truncate the peak energy to an int. -/
def saveClip (cfg : Config) (ctx : StateMachineContext) (end_time : ℚ) : ClipInfo :=
  let clip_start := max 0 (ctx.serve_time - cfg.pre_serve_buffer)
  let tc := classify cfg (end_time - clip_start) ctx.clip_peak_energy
  { start := clip_start
    end_ := end_time
    tag := tc.1
    confidence := tc.2
    peak_energy := truncQ ctx.clip_peak_energy }

/-- state_machine.py lines 175-176: peak tracking during PROBATION and RALLY. -/
def trackPeak (ctx : StateMachineContext) (smooth_energy : ℚ) : StateMachineContext :=
  if ctx.state = GameState.PROBATION ∨ ctx.state = GameState.RALLY then
    { ctx with clip_peak_energy := max ctx.clip_peak_energy smooth_energy }
  else ctx

/-- state_machine.py lines 180-195: the global force-cut override, run only
while in RALLY, before the state dispatch chain.  The held-frame counter is
incremented before the threshold test, exactly as in the source. -/
def overrideStep (M : StateMachine) (ctx : StateMachineContext)
    (timestamp : ℚ) (active_zones : ℤ) (logic_step : ℤ) :
    StateMachineContext × Option ClipInfo :=
  if ctx.state = GameState.RALLY then
    if M.cfg.min_occupied_zones ≤ active_zones then
      let fh := ctx.frames_held + logic_step
      if M.frames_override_needed ≤ fh then
        ({ ctx with state := GameState.LOCKED
                    frames_held := M.frames_start_needed
                    baseline_readings := [] },
         some (saveClip M.cfg { ctx with frames_held := fh } (timestamp - 1)))
      else ({ ctx with frames_held := fh }, none)
    else ({ ctx with frames_held := 0 }, none)
  else (ctx, none)

/-- state_machine.py lines 199-207: the SEARCHING branch. -/
def searchingStep (M : StateMachine) (ctx : StateMachineContext)
    (active_zones : ℤ) (smooth_energy : ℚ) (logic_step : ℤ) : StateMachineContext :=
  if M.cfg.min_occupied_zones ≤ active_zones then
    let fh := ctx.frames_held + logic_step
    let br := ctx.baseline_readings ++ [smooth_energy]
    if M.frames_start_needed ≤ fh then
      { ctx with state := GameState.LOCKED, frames_held := fh, baseline_readings := br }
    else { ctx with frames_held := fh, baseline_readings := br }
  else { ctx with frames_held := 0, baseline_readings := [] }

/-- state_machine.py lines 211-230: the LOCKED branch.  The current reading is
appended to the baseline first; a drop in occupancy calibrates the threshold
and transitions to PROBATION.  Note `low_energy_frames` is NOT touched. -/
def lockedStep (M : StateMachine) (ctx : StateMachineContext)
    (timestamp : ℚ) (active_zones : ℤ) (smooth_energy : ℚ) : StateMachineContext :=
  let br := ctx.baseline_readings ++ [smooth_energy]
  if active_zones < M.cfg.min_occupied_zones then
    { ctx with baseline_readings := br
               dynamic_threshold :=
                 calculate_dynamic_threshold br
                   M.cfg.base_sensitivity M.cfg.min_dynamic_threshold M.cfg.max_dynamic_threshold
               serve_time := timestamp
               state := GameState.PROBATION
               frames_held := 0
               clip_peak_energy := 0 }
  else { ctx with baseline_readings := br }

/-- state_machine.py lines 236-259: the PROBATION branch. -/
def probationStep (M : StateMachine) (ctx : StateMachineContext)
    (timestamp : ℚ) (smooth_energy : ℚ) (logic_step : ℤ) :
    StateMachineContext × Option ClipInfo :=
  let current_duration := timestamp - ctx.serve_time
  let low_energy :=
    if smooth_energy < ctx.dynamic_threshold then ctx.low_energy_frames + logic_step else 0
  if M.cfg.min_point_duration ≤ current_duration then
    if ctx.dynamic_threshold < smooth_energy then
      ({ ctx with state := GameState.RALLY, low_energy_frames := 0 }, none)
    else if M.frames_end_needed ≤ low_energy then
      ({ ctx with state := GameState.SEARCHING
                  frames_held := 0
                  low_energy_frames := low_energy
                  baseline_readings := [] },
       some (saveClip M.cfg { ctx with low_energy_frames := low_energy }
         (timestamp + M.cfg.post_point_buffer)))
    else ({ ctx with low_energy_frames := low_energy }, none)
  else ({ ctx with low_energy_frames := low_energy }, none)

/-- state_machine.py lines 263-281: the RALLY branch, with the occlusion
shield (fewer than one skeleton resets the low-energy counter). -/
def rallyStep (M : StateMachine) (ctx : StateMachineContext)
    (timestamp : ℚ) (smooth_energy : ℚ) (num_skeletons : ℤ) (logic_step : ℤ) :
    StateMachineContext × Option ClipInfo :=
  let low_energy :=
    if num_skeletons < 1 then 0
    else if smooth_energy < ctx.dynamic_threshold then ctx.low_energy_frames + logic_step
    else 0
  if M.frames_end_needed ≤ low_energy then
    ({ ctx with state := GameState.SEARCHING
                frames_held := 0
                low_energy_frames := low_energy
                baseline_readings := [] },
     some (saveClip M.cfg { ctx with low_energy_frames := low_energy }
       (timestamp + M.cfg.post_point_buffer)))
  else ({ ctx with low_energy_frames := low_energy }, none)

/-- The if/elif dispatch chain of state_machine.py lines 199-281, evaluated on
the state as possibly already modified by the override. -/
def chainStep (M : StateMachine) (ctx : StateMachineContext)
    (timestamp : ℚ) (active_zones : ℤ) (smooth_energy : ℚ)
    (num_skeletons : ℤ) (logic_step : ℤ) :
    StateMachineContext × Option ClipInfo :=
  if ctx.state = GameState.SEARCHING then
    (searchingStep M ctx active_zones smooth_energy logic_step, none)
  else if ctx.state = GameState.LOCKED then
    (lockedStep M ctx timestamp active_zones smooth_energy, none)
  else if ctx.state = GameState.PROBATION then
    probationStep M ctx timestamp smooth_energy logic_step
  else if ctx.state = GameState.RALLY then
    rallyStep M ctx timestamp smooth_energy num_skeletons logic_step
  else (ctx, none)

/-- `completed_clip` is assigned by the override and possibly overwritten by
the dispatch chain: the chain's clip wins when present. -/
def orOpt (a b : Option ClipInfo) : Option ClipInfo :=
  match a with
  | some c => some c
  | none => b

/-- StateMachine.update (state_machine.py lines 147-286) on an explicit
context: peak tracking, then the global override, then the state dispatch
chain.  Returns the new context and the completed clip, if any. -/
def StateMachine.update (M : StateMachine) (ctx : StateMachineContext)
    (timestamp : ℚ) (active_zones : ℤ) (smooth_energy : ℚ)
    (num_skeletons : ℤ) (logic_step : ℤ) :
    StateMachineContext × Option ClipInfo :=
  let o := overrideStep M (trackPeak ctx smooth_energy) timestamp active_zones logic_step
  let r := chainStep M o.1 timestamp active_zones smooth_energy num_skeletons logic_step
  (r.1, orOpt r.2 o.2)

/-- StateMachine.update together with the `self.clips.append(completed_clip)`
of lines 283-284: the clip list is threaded explicitly. -/
def updateClips (M : StateMachine) (ctx : StateMachineContext) (clips : List ClipInfo)
    (timestamp : ℚ) (active_zones : ℤ) (smooth_energy : ℚ)
    (num_skeletons : ℤ) (logic_step : ℤ) :
    StateMachineContext × List ClipInfo × Option ClipInfo :=
  let r := StateMachine.update M ctx timestamp active_zones smooth_energy num_skeletons logic_step
  match r.2 with
  | some c => (r.1, clips ++ [c], some c)
  | none => (r.1, clips, none)

/-- One per-frame input record of the engine. -/
structure Frame where
  timestamp : ℚ
  active_zones : ℤ
  smooth_energy : ℚ
  num_skeletons : ℤ
  logic_step : ℤ
deriving DecidableEq

/-- Feeding a list of frames through the state machine in order. -/
def runFrames (M : StateMachine) :
    List Frame → StateMachineContext × List ClipInfo → StateMachineContext × List ClipInfo
  | [], s => s
  | f :: fs, s =>
    let r := updateClips M s.1 s.2 f.timestamp f.active_zones f.smooth_energy
               f.num_skeletons f.logic_step
    runFrames M fs (r.1, r.2.1)

/-- utils.py, EnergyCalculator: the state read by `update_smooth`
(the previous-skeleton list is carried but not read by smoothing). -/
structure EnergyCalculator where
  prev_skeletons : List (ℚ × ℚ)
  smooth_energy : ℚ
deriving DecidableEq

/-- EnergyCalculator.update_smooth (utils.py lines 170-185):
`smooth = raw * alpha + smooth_prev * (1 - alpha)`, stored and returned. -/
def update_smooth (cfg : Config) (ec : EnergyCalculator) (raw_energy : ℚ) :
    EnergyCalculator × ℚ :=
  let alpha := cfg.energy_smoothing_factor
  let s := raw_energy * alpha + ec.smooth_energy * (1 - alpha)
  ({ ec with smooth_energy := s }, s)

/-- Repeatedly feeding the same raw energy to update_smooth, starting from
smoothed value s0. -/
def smoothIter (cfg : Config) (raw : ℚ) (s0 : ℚ) : ℕ → ℚ
  | 0 => s0
  | n + 1 => (update_smooth cfg { prev_skeletons := [], smooth_energy := smoothIter cfg raw s0 n } raw).2

/-- A zone polygon: the list of its integer vertices (utils.py stores each
zone as an int32 numpy array of coordinate pairs). -/
abbrev Zone := List (ℤ × ℤ)

/-- ZoneManager.load_zones (utils.py lines 36-47) after JSON parsing: every
parsed zone is converted to an integer vertex array and stored unchanged.
The source performs no validation of vertex counts or geometry, so the load
never fails on already-parsed data. -/
def load_zones (data : List Zone) : Except String (List Zone) :=
  Except.ok data

/-- utils.py, ZoneStatus. -/
structure ZoneStatus where
  active_count : ℕ
  occupancy : List Bool
deriving DecidableEq

/-- ZoneManager.check_occupancy (utils.py lines 63-84), with the external
cv2 point-in-polygon test abstracted as the parameter `pit`.  The imperative
double loop marks zone i occupied exactly when some ankle tests inside it. -/
def check_occupancy (pit : (ℚ × ℚ) → Zone → Bool)
    (zones : List Zone) (ankles : List (ℚ × ℚ)) : ZoneStatus :=
  let occupied := zones.map fun z => ankles.any fun a => pit a z
  { active_count := occupied.count true, occupancy := occupied }

/-- ZoneManager.scale_zones (utils.py lines 49-61): every vertex coordinate is
multiplied by the ratio `target_width / original_width` and converted with
`astype(np.int32)`, i.e. truncated toward zero.  The float arithmetic of the
source is modelled exactly over the rationals. -/
def scale_zones (zones : List Zone) (original_width target_width : ℤ) : List Zone :=
  let scale_factor : ℚ := (target_width : ℚ) / (original_width : ℚ)
  zones.map fun z => z.map fun v =>
    (truncQ ((v.1 : ℚ) * scale_factor), truncQ ((v.2 : ℚ) * scale_factor))

/-- Spec-side description of one scaled coordinate for the amended C4:
c is the exact value x·(T/W) truncated toward zero, stated by the
floor/ceiling bracketing inequalities. -/
def coordTruncSpec (W T : ℤ) (c x : ℤ) : Prop :=
  (0 ≤ (x : ℚ) * ((T : ℚ) / (W : ℚ)) →
    (c : ℚ) ≤ (x : ℚ) * ((T : ℚ) / (W : ℚ)) ∧ (x : ℚ) * ((T : ℚ) / (W : ℚ)) < c + 1) ∧
  ((x : ℚ) * ((T : ℚ) / (W : ℚ)) < 0 →
    (x : ℚ) * ((T : ℚ) / (W : ℚ)) ≤ c ∧ (c : ℚ) - 1 < (x : ℚ) * ((T : ℚ) / (W : ℚ)))

/-- The clip-shape property of C5: the start is the buffered candidate start
(for some nonnegative candidate start time) and precedes the end. -/
def ClipOk (cfg : Config) (c : ClipInfo) : Prop :=
  (∃ s : ℚ, 0 ≤ s ∧ c.start = max 0 (s - cfg.pre_serve_buffer)) ∧ c.start < c.end_

/-- Trace invariant for C5: `tlow` is a lower bound on the next timestamp,
the candidate start time is nonnegative, and in RALLY the minimum point
duration has already elapsed by `tlow`. -/
def ClipInv (cfg : Config) (ctx : StateMachineContext) (tlow : ℚ) : Prop :=
  0 ≤ tlow ∧ 0 ≤ ctx.serve_time ∧
  (ctx.state = GameState.RALLY → ctx.serve_time + cfg.min_point_duration ≤ tlow)

/-- Timestamps of a frame list are at least `tlow` and nondecreasing. -/
def timesFrom (tlow : ℚ) : List Frame → Prop
  | [] => True
  | f :: fs => tlow ≤ f.timestamp ∧ timesFrom f.timestamp fs

/-- A small test machine: defaults except fast timing (1 fps, one-frame hold,
no minimum point duration, one-frame low-energy cut). -/
def M1 : StateMachine :=
  { cfg := { defaultConfig with
               min_hold_duration := 1
               min_point_duration := 0
               min_low_energy_duration := 1 }
    fps := 1 }

/-- A test machine like M1 but needing five low-energy frames to cut. -/
def M2 : StateMachine :=
  { cfg := { defaultConfig with
               min_hold_duration := 1
               min_point_duration := 0
               min_low_energy_duration := 5 }
    fps := 1 }

/-- The default-configuration machine at 1 fps. -/
def MD : StateMachine := { cfg := defaultConfig, fps := 1 }

/-- Trace reaching LOCKED with a stale low-energy counter on M1: arm, serve,
immediate low-energy cut (which leaves `low_energy_frames = 1`), re-arm. -/
def framesC1 : List Frame :=
  [ ⟨0, 2, 0, 1, 1⟩, ⟨1, 0, 0, 1, 1⟩, ⟨2, 0, 0, 1, 1⟩, ⟨3, 2, 0, 1, 1⟩ ]

/-- The context after framesC1: LOCKED with `low_energy_frames = 1`. -/
def ctxC1 : StateMachineContext := (runFrames M1 framesC1 (initCtx, [])).1

/-- Trace reaching RALLY on M1: arm, serve, energy spike promotes. -/
def framesC2 : List Frame :=
  [ ⟨0, 2, 0, 1, 1⟩, ⟨1, 0, 0, 1, 1⟩, ⟨2, 0, 100, 1, 1⟩ ]

/-- The context after framesC2: RALLY with peak energy 100. -/
def ctxC2 : StateMachineContext := (runFrames M1 framesC2 (initCtx, [])).1

/-- Trace reaching RALLY on M2 with one accumulated low-energy frame and a
ready force-cut counter. -/
def framesC7 : List Frame :=
  [ ⟨0, 2, 0, 1, 1⟩, ⟨1, 0, 0, 1, 1⟩, ⟨2, 0, 100, 1, 1⟩, ⟨3, 0, 0, 1, 1⟩ ]

/-- The context after framesC7: RALLY with `low_energy_frames = 1`. -/
def ctxC7 : StateMachineContext := (runFrames M2 framesC7 (initCtx, [])).1

/-- Default-configuration end-to-end trace for C5: arm for 2 frames, serve,
rally energy spike, then sustained low energy ending the point. -/
def framesC5 : List Frame :=
  [ ⟨0, 2, 0, 1, 1⟩, ⟨1, 2, 0, 1, 1⟩, ⟨2, 0, 0, 1, 1⟩,
    ⟨3, 0, 100, 1, 1⟩, ⟨5, 0, 0, 1, 1⟩, ⟨6, 0, 0, 1, 1⟩ ]

/-- The single clip produced by framesC5 on MD. -/
def clipC5 : ClipInfo :=
  { start := 0, end_ := 5, tag := "Rally", confidence := "High", peak_energy := 100 }

/-- The clip produced by the force cut applied to ctxC2 at time 3. -/
def clipC2cut : ClipInfo :=
  { start := 0, end_ := 2, tag := "Rally", confidence := "High", peak_energy := 100 }

theorem clamp_bounds (v mn mx : ℚ) (h : mn ≤ mx) : mn ≤ clamp v mn mx ∧ clamp v mn mx ≤ mx :=
  ⟨le_max_left _ _, max_le h (min_le_right _ _)⟩

/-- C6: calculate_dynamic_threshold returns the clamp of (noise_floor +
base_sensitivity) to [min_threshold, max_threshold], where the noise floor is
the mean of the readings when nonempty and the fixed fallback 10.0 otherwise;
whenever min_threshold ≤ max_threshold the result lies in that interval. -/
theorem calibrator_clamp_formula (readings : List ℚ) (base mn mx : ℚ) (h : mn ≤ mx) :
    (readings = [] → calculate_dynamic_threshold readings base mn mx = clamp (10 + base) mn mx) ∧
    (readings ≠ [] → calculate_dynamic_threshold readings base mn mx =
      clamp (readings.sum / (readings.length : ℚ) + base) mn mx) ∧
    (mn ≤ calculate_dynamic_threshold readings base mn mx ∧
      calculate_dynamic_threshold readings base mn mx ≤ mx) := by
  refine ⟨?_, ?_, clamp_bounds _ mn mx h⟩
  · intro he
    subst he
    rfl
  · intro he
    cases readings with
    | nil => exact absurd rfl he
    | cons a l => rfl

/-- Witness for C6 at a concrete input. -/
theorem calibrator_clamp_formula_witness :
    (0 : ℚ) ≤ 100 ∧
    (0 ≤ calculate_dynamic_threshold [2, 4] 15 0 100 ∧
      calculate_dynamic_threshold [2, 4] 15 0 100 ≤ 100) :=
  ⟨by norm_num, (calibrator_clamp_formula [2, 4] 15 0 100 (by norm_num)).2.2⟩

/-- C9: the clip classifier maps peak energy above the rally threshold to
("Rally", "High"), below the walk cap to ("Noise", "Low"), and anything in
between to ("Serve", "Medium"); the duration argument never affects the
result. -/
theorem classify_traffic_light (cfg : Config)
    (h : cfg.walk_energy_cap ≤ cfg.rally_energy_req) (d d1 d2 p : ℚ) :
    (cfg.rally_energy_req < p → classify cfg d p = ("Rally", "High")) ∧
    (p < cfg.walk_energy_cap → classify cfg d p = ("Noise", "Low")) ∧
    (cfg.walk_energy_cap ≤ p → p ≤ cfg.rally_energy_req →
      classify cfg d p = ("Serve", "Medium")) ∧
    classify cfg d1 p = classify cfg d2 p := by
  unfold classify
  refine ⟨fun h1 => by rw [if_pos h1], fun h1 => ?_, fun h1 h2 => ?_, rfl⟩
  · rw [if_neg (by linarith), if_pos h1]
  · rw [if_neg (by linarith), if_neg (by linarith)]

/-- Witness for C9 at the default configuration. -/
theorem classify_traffic_light_witness :
    defaultConfig.walk_energy_cap ≤ defaultConfig.rally_energy_req ∧
    classify defaultConfig 1 100 = ("Rally", "High") ∧
    classify defaultConfig 7 3 = classify defaultConfig 9 3 :=
  ⟨by norm_num [defaultConfig],
   (classify_traffic_light defaultConfig (by norm_num [defaultConfig]) 1 1 1 100).1
     (by norm_num [defaultConfig]),
   (classify_traffic_light defaultConfig (by norm_num [defaultConfig]) 7 7 9 3).2.2.2⟩

theorem smoothIter_geometric (cfg : Config) (r s0 : ℚ)
    (h1 : cfg.energy_smoothing_factor ≤ 1) :
    ∀ n, |smoothIter cfg r s0 n - r| =
      (1 - cfg.energy_smoothing_factor) ^ n * |s0 - r| := by
  intro n
  induction n with
  | zero => simp [smoothIter]
  | succ m ih =>
      have key : smoothIter cfg r s0 (m + 1) - r =
          (1 - cfg.energy_smoothing_factor) * (smoothIter cfg r s0 m - r) := by
        show (update_smooth cfg { prev_skeletons := [], smooth_energy := smoothIter cfg r s0 m } r).2 - r =
          (1 - cfg.energy_smoothing_factor) * (smoothIter cfg r s0 m - r)
        unfold update_smooth
        ring
      rw [key, abs_mul, abs_of_nonneg (by linarith), ih, pow_succ]
      ring

/-- C8: update_smooth stores and returns `alpha·raw + (1-alpha)·previous`;
for alpha in (0,1] the iterates at a fixed raw value have monotonically
non-increasing distance to it, decaying geometrically (hence converging). -/
theorem update_smooth_converges (cfg : Config) (ec : EnergyCalculator) (raw : ℚ)
    (h0 : 0 < cfg.energy_smoothing_factor) (h1 : cfg.energy_smoothing_factor ≤ 1)
    (r s0 : ℚ) (n : ℕ) :
    (update_smooth cfg ec raw).2 =
      cfg.energy_smoothing_factor * raw + (1 - cfg.energy_smoothing_factor) * ec.smooth_energy ∧
    (update_smooth cfg ec raw).1.smooth_energy = (update_smooth cfg ec raw).2 ∧
    |smoothIter cfg r s0 (n + 1) - r| ≤ |smoothIter cfg r s0 n - r| ∧
    |smoothIter cfg r s0 n - r| = (1 - cfg.energy_smoothing_factor) ^ n * |s0 - r| := by
  refine ⟨by unfold update_smooth; ring, rfl, ?_, smoothIter_geometric cfg r s0 h1 n⟩
  rw [smoothIter_geometric cfg r s0 h1 n, smoothIter_geometric cfg r s0 h1 (n + 1), pow_succ]
  have hp : (0 : ℚ) ≤ (1 - cfg.energy_smoothing_factor) ^ n * |s0 - r| :=
    mul_nonneg (pow_nonneg (by linarith) n) (abs_nonneg _)
  nlinarith [hp]

/-- Witness for C8 at the default smoothing factor 0.3. -/
theorem update_smooth_converges_witness :
    0 < defaultConfig.energy_smoothing_factor ∧ defaultConfig.energy_smoothing_factor ≤ 1 ∧
    |smoothIter defaultConfig 2 0 1 - 2| ≤ |smoothIter defaultConfig 2 0 0 - 2| :=
  ⟨by norm_num [defaultConfig], by norm_num [defaultConfig],
   (update_smooth_converges defaultConfig { prev_skeletons := [], smooth_energy := 0 } 2
     (by norm_num [defaultConfig]) (by norm_num [defaultConfig]) 2 0 0).2.2.1⟩

/-- C10: each update call appends at most one clip, at the end of the list,
never disturbs previously stored clips, and returns a clip exactly when one
was appended; otherwise the clip list is unchanged and None is returned. -/
theorem update_appends_at_most_one (M : StateMachine) (ctx : StateMachineContext)
    (clips : List ClipInfo) (t : ℚ) (az : ℤ) (e : ℚ) (ns ls : ℤ) :
    (∀ c, (updateClips M ctx clips t az e ns ls).2.2 = some c →
      (updateClips M ctx clips t az e ns ls).2.1 = clips ++ [c]) ∧
    ((updateClips M ctx clips t az e ns ls).2.2 = none →
      (updateClips M ctx clips t az e ns ls).2.1 = clips) := by
  unfold updateClips
  cases h : (StateMachine.update M ctx t az e ns ls).2 with
  | none => simp [h]
  | some c => simp [h]

/-- Witness for C10: the force cut on ctxC2 appends exactly one clip. -/
theorem update_appends_at_most_one_witness :
    (updateClips M1 ctxC2 [] 3 2 100 1 1).2.2 = some clipC2cut ∧
    (updateClips M1 ctxC2 [] 3 2 100 1 1).2.1 = [] ++ [clipC2cut] :=
  ⟨by with_unfolding_all decide,
   (update_appends_at_most_one M1 ctxC2 [] 3 2 100 1 1).1 clipC2cut
     (by with_unfolding_all decide)⟩

/-- C3 is refuted: load_zones performs no vertex-count validation.  Loading a
zone list whose only zone has zero vertices succeeds (no error is raised).  -/
theorem load_zones_counterexample :
    load_zones [([] : Zone)] = Except.ok [([] : Zone)] ∧ ([] : Zone).length = 0 :=
  ⟨rfl, rfl⟩

/-- C3 (amended): load_zones performs no geometry validation — zone data
containing a polygon with fewer than 3 vertices is loaded successfully and
kept unchanged, and occupancy checking proceeds over the full zone list. -/
theorem load_zones_no_validation (data : List Zone) (z : Zone) (hz : z ∈ data)
    (hlen : z.length < 3) (pit : (ℚ × ℚ) → Zone → Bool) (ankles : List (ℚ × ℚ)) :
    load_zones data = Except.ok data ∧
    (check_occupancy pit data ankles).occupancy.length = data.length := by
  refine ⟨rfl, ?_⟩
  simp [check_occupancy]

/-- Witness for the amended C3 at a zero-vertex zone. -/
theorem load_zones_no_validation_witness :
    ([] : Zone) ∈ [([] : Zone)] ∧ ([] : Zone).length < 3 ∧
    (load_zones [([] : Zone)] = Except.ok [([] : Zone)] ∧
      (check_occupancy (fun _ _ => false) [([] : Zone)] []).occupancy.length =
        [([] : Zone)].length) :=
  ⟨by simp, by norm_num,
   load_zones_no_validation [([] : Zone)] [] (by simp) (by norm_num) (fun _ _ => false) []⟩

theorem truncQ_nonneg_le (q : ℚ) (h : 0 ≤ q) : (truncQ q : ℚ) ≤ q ∧ q < truncQ q + 1 := by
  unfold truncQ
  rw [if_pos h]
  exact ⟨Int.floor_le q, Int.lt_floor_add_one q⟩

theorem truncQ_neg_le (q : ℚ) (h : q < 0) : q ≤ truncQ q ∧ (truncQ q : ℚ) - 1 < q := by
  unfold truncQ
  rw [if_neg (not_le.mpr h)]
  have h2 := Int.ceil_lt_add_one q
  exact ⟨Int.le_ceil q, by linarith⟩

theorem coordTruncSpec_truncQ (W T x : ℤ) :
    coordTruncSpec W T (truncQ ((x : ℚ) * ((T : ℚ) / (W : ℚ)))) x :=
  ⟨fun h => truncQ_nonneg_le _ h, fun h => truncQ_neg_le _ h⟩

theorem zip_map_forall {α β : Type} (f : α → β) (P : β → α → Prop) (hP : ∀ a, P (f a) a) :
    ∀ (l : List α) (p : β × α), p ∈ List.zip (l.map f) l → P p.1 p.2 := by
  intro l
  induction l with
  | nil => intro p hp; simp at hp
  | cons a tl ih =>
      intro p hp
      simp only [List.map_cons, List.zip_cons_cons, List.mem_cons] at hp
      rcases hp with h | h
      · subst h; exact hP a
      · exact ih p h

/-- C4 is refuted: scaling the vertex (5, 0) from width 3 to width 1 yields
coordinate 1 (truncation), while the nearest integer to 5·(1/3) is 2. -/
theorem scale_zones_counterexample :
    scale_zones [[((5 : ℤ), (0 : ℤ))]] 3 1 = [[(1, 0)]] ∧
    round ((5 : ℚ) * ((1 : ℚ) / (3 : ℚ))) = 2 ∧ (1 : ℤ) ≠ 2 := by
  refine ⟨by with_unfolding_all decide, by with_unfolding_all decide, by decide⟩

/-- C4 (amended): scale_zones multiplies every vertex coordinate by the
uniform ratio target_width / original_width and truncates toward zero
(floor for nonnegative values, ceiling for negative ones), shape-preserving. -/
theorem scale_zones_truncates (zones : List Zone) (W T : ℤ) (hW : W ≠ 0) :
    (scale_zones zones W T).length = zones.length ∧
    ∀ zp ∈ List.zip (scale_zones zones W T) zones,
      zp.1.length = zp.2.length ∧
      ∀ vp ∈ List.zip zp.1 zp.2,
        coordTruncSpec W T vp.1.1 vp.2.1 ∧ coordTruncSpec W T vp.1.2 vp.2.2 := by
  have hsz : scale_zones zones W T = zones.map (fun z => z.map (fun v =>
      (truncQ ((v.1 : ℚ) * ((T : ℚ) / (W : ℚ))),
       truncQ ((v.2 : ℚ) * ((T : ℚ) / (W : ℚ)))))) := rfl
  constructor
  · rw [hsz, List.length_map]
  · intro zp hzp
    rw [hsz] at hzp
    have hz1 := zip_map_forall _ (fun b a => b = a.map (fun v =>
      (truncQ ((v.1 : ℚ) * ((T : ℚ) / (W : ℚ))),
       truncQ ((v.2 : ℚ) * ((T : ℚ) / (W : ℚ)))))) (fun a => rfl) zones zp hzp
    constructor
    · rw [hz1, List.length_map]
    · intro vp hvp
      rw [hz1] at hvp
      have hv1 := zip_map_forall _ (fun b a => b = (truncQ ((a.1 : ℚ) * ((T : ℚ) / (W : ℚ))),
        truncQ ((a.2 : ℚ) * ((T : ℚ) / (W : ℚ))))) (fun a => rfl) zp.2 vp hvp
      rw [hv1]
      exact ⟨coordTruncSpec_truncQ W T vp.2.1, coordTruncSpec_truncQ W T vp.2.2⟩

/-- Witness for the amended C4 at the counterexample zone. -/
theorem scale_zones_truncates_witness :
    (3 : ℤ) ≠ 0 ∧
    (scale_zones [[((5 : ℤ), (0 : ℤ))]] 3 1).length = [[((5 : ℤ), (0 : ℤ))]].length :=
  ⟨by decide, (scale_zones_truncates [[((5 : ℤ), (0 : ℤ))]] 3 1 (by decide)).1⟩

theorem orOpt_none_right (a : Option ClipInfo) : orOpt a none = a := by
  cases a <;> rfl

/-- In SEARCHING, update is just the SEARCHING branch with no clip. -/
theorem update_searching_eq (M : StateMachine) (ctx : StateMachineContext)
    (t : ℚ) (az : ℤ) (e : ℚ) (ns ls : ℤ) (hstate : ctx.state = GameState.SEARCHING) :
    StateMachine.update M ctx t az e ns ls = (searchingStep M ctx az e ls, none) := by
  simp [StateMachine.update, trackPeak, overrideStep, chainStep, orOpt, hstate]

/-- In LOCKED, update is just the LOCKED branch with no clip. -/
theorem update_locked_eq (M : StateMachine) (ctx : StateMachineContext)
    (t : ℚ) (az : ℤ) (e : ℚ) (ns ls : ℤ) (hstate : ctx.state = GameState.LOCKED) :
    StateMachine.update M ctx t az e ns ls = (lockedStep M ctx t az e, none) := by
  simp [StateMachine.update, trackPeak, overrideStep, chainStep, orOpt, hstate]

/-- In PROBATION, update is peak tracking followed by the PROBATION branch. -/
theorem update_probation_eq (M : StateMachine) (ctx : StateMachineContext)
    (t : ℚ) (az : ℤ) (e : ℚ) (ns ls : ℤ) (hstate : ctx.state = GameState.PROBATION) :
    StateMachine.update M ctx t az e ns ls =
      probationStep M { ctx with clip_peak_energy := max ctx.clip_peak_energy e } t e ls := by
  simp [StateMachine.update, trackPeak, overrideStep, chainStep, orOpt_none_right, hstate]

/-- In RALLY with occupancy below the minimum, the override only zeroes the
held-frame counter and the RALLY branch runs. -/
theorem update_rally_noarm_eq (M : StateMachine) (ctx : StateMachineContext)
    (t : ℚ) (az : ℤ) (e : ℚ) (ns ls : ℤ) (hstate : ctx.state = GameState.RALLY)
    (haz : az < M.cfg.min_occupied_zones) :
    StateMachine.update M ctx t az e ns ls =
      rallyStep M { ctx with frames_held := 0, clip_peak_energy := max ctx.clip_peak_energy e }
        t e ns ls := by
  simp [StateMachine.update, trackPeak, overrideStep, chainStep, orOpt_none_right, hstate,
    haz, not_le.mpr haz]

/-- In RALLY with occupancy at the minimum but the override threshold not yet
reached, the held-frame counter advances and the RALLY branch runs. -/
theorem update_rally_arm_eq (M : StateMachine) (ctx : StateMachineContext)
    (t : ℚ) (az : ℤ) (e : ℚ) (ns ls : ℤ) (hstate : ctx.state = GameState.RALLY)
    (haz : M.cfg.min_occupied_zones ≤ az)
    (hov : ctx.frames_held + ls < M.frames_override_needed) :
    StateMachine.update M ctx t az e ns ls =
      rallyStep M { ctx with frames_held := ctx.frames_held + ls
                             clip_peak_energy := max ctx.clip_peak_energy e } t e ns ls := by
  simp [StateMachine.update, trackPeak, overrideStep, chainStep, orOpt_none_right, hstate,
    haz, not_le.mpr hov]

/-- In RALLY with the force cut firing, update saves the clip with
end = timestamp − 1, jumps to LOCKED, and then the LOCKED branch of the same
call runs on the reset context. -/
theorem update_rally_forcecut_eq (M : StateMachine) (ctx : StateMachineContext)
    (t : ℚ) (az : ℤ) (e : ℚ) (ns ls : ℤ) (hstate : ctx.state = GameState.RALLY)
    (haz : M.cfg.min_occupied_zones ≤ az)
    (hov : M.frames_override_needed ≤ ctx.frames_held + ls) :
    StateMachine.update M ctx t az e ns ls =
      (lockedStep M
        { ctx with state := GameState.LOCKED
                   frames_held := M.frames_start_needed
                   clip_peak_energy := max ctx.clip_peak_energy e
                   baseline_readings := [] } t az e,
       some (saveClip M.cfg
         { ctx with frames_held := ctx.frames_held + ls
                    clip_peak_energy := max ctx.clip_peak_energy e } (t - 1))) := by
  simp [StateMachine.update, trackPeak, overrideStep, chainStep, orOpt, hstate, haz, hov]

/-- When occupancy stays at the minimum, the LOCKED branch only appends the
current reading to the baseline. -/
theorem lockedStep_hold (M : StateMachine) (ctx : StateMachineContext)
    (t : ℚ) (az : ℤ) (e : ℚ) (haz : ¬ az < M.cfg.min_occupied_zones) :
    lockedStep M ctx t az e =
      { ctx with baseline_readings := ctx.baseline_readings ++ [e] } := by
  simp [lockedStep, haz]

/-- With zero skeletons the RALLY branch resets the low-energy counter and,
when the low-energy frame threshold is positive, cuts nothing. -/
theorem rallyStep_ns0 (M : StateMachine) (ctx : StateMachineContext)
    (t : ℚ) (e : ℚ) (ls : ℤ) (hend : 0 < M.frames_end_needed) :
    rallyStep M ctx t e 0 ls = ({ ctx with low_energy_frames := 0 }, none) := by
  simp [rallyStep, show ((0 : ℤ) < 1) = True by simp, not_le.mpr hend]

/-- The RALLY branch either cuts (with the accumulated counter at or past the
threshold) or continues with the counter below the threshold. -/
theorem rallyStep_cases (M : StateMachine) (ctx : StateMachineContext)
    (t e : ℚ) (ns ls : ℤ) :
    (∃ v, M.frames_end_needed ≤ v ∧
      rallyStep M ctx t e ns ls =
        ({ ctx with state := GameState.SEARCHING, frames_held := 0,
                    low_energy_frames := v, baseline_readings := [] },
         some (saveClip M.cfg { ctx with low_energy_frames := v }
           (t + M.cfg.post_point_buffer)))) ∨
    (∃ v, ¬ M.frames_end_needed ≤ v ∧
      rallyStep M ctx t e ns ls = ({ ctx with low_energy_frames := v }, none)) := by
  simp only [rallyStep]
  by_cases hcut : M.frames_end_needed ≤
      (if ns < 1 then 0
       else if e < ctx.dynamic_threshold then ctx.low_energy_frames + ls else 0)
  · rw [if_pos hcut]
    exact Or.inl ⟨_, hcut, rfl⟩
  · rw [if_neg hcut]
    exact Or.inr ⟨_, hcut, rfl⟩

/-- Evaluating updateClips when the update produced a clip. -/
theorem updateClips_eq_some (M : StateMachine) (ctx : StateMachineContext)
    (clips : List ClipInfo) (t : ℚ) (az : ℤ) (e : ℚ) (ns ls : ℤ)
    (r : StateMachineContext) (c : ClipInfo)
    (h : StateMachine.update M ctx t az e ns ls = (r, some c)) :
    updateClips M ctx clips t az e ns ls = (r, clips ++ [c], some c) := by
  simp [updateClips, h]

/-- Evaluating updateClips when the update produced no clip. -/
theorem updateClips_eq_none (M : StateMachine) (ctx : StateMachineContext)
    (clips : List ClipInfo) (t : ℚ) (az : ℤ) (e : ℚ) (ns ls : ℤ)
    (r : StateMachineContext)
    (h : StateMachine.update M ctx t az e ns ls = (r, none)) :
    updateClips M ctx clips t az e ns ls = (r, clips, none) := by
  simp [updateClips, h]

/-- C1 is refuted on the low-energy-counter clause: after a probation cut the
counter keeps its value, so LOCKED is reachable (framesC1 from the initial
context) with `low_energy_frames = 1`, and the serve transition out of LOCKED
leaves it at 1 instead of resetting it to zero. -/
theorem locked_serve_counterexample :
    ctxC1.state = GameState.LOCKED ∧ ctxC1.low_energy_frames = 1 ∧
    (StateMachine.update M1 ctxC1 4 0 0 1 1).1.state = GameState.PROBATION ∧
    (StateMachine.update M1 ctxC1 4 0 0 1 1).1.low_energy_frames = 1 ∧
    (StateMachine.update M1 ctxC1 4 0 0 1 1).1.low_energy_frames ≠ 0 := by
  with_unfolding_all decide

/-- C1 (amended): in LOCKED, an update whose occupied-zone count drops below
the minimum appends the current reading to the baseline, computes the dynamic
threshold from those readings, records the timestamp as the candidate start,
resets peak energy and the held-frame counter to zero, and transitions to
PROBATION; the low-energy counter is left unchanged (it is not reset). -/
theorem locked_serve_transition (M : StateMachine) (ctx : StateMachineContext)
    (t : ℚ) (az : ℤ) (e : ℚ) (ns ls : ℤ)
    (hstate : ctx.state = GameState.LOCKED) (haz : az < M.cfg.min_occupied_zones) :
    (StateMachine.update M ctx t az e ns ls).1.state = GameState.PROBATION ∧
    (StateMachine.update M ctx t az e ns ls).1.serve_time = t ∧
    (StateMachine.update M ctx t az e ns ls).1.frames_held = 0 ∧
    (StateMachine.update M ctx t az e ns ls).1.clip_peak_energy = 0 ∧
    (StateMachine.update M ctx t az e ns ls).1.dynamic_threshold =
      calculate_dynamic_threshold (ctx.baseline_readings ++ [e])
        M.cfg.base_sensitivity M.cfg.min_dynamic_threshold M.cfg.max_dynamic_threshold ∧
    (StateMachine.update M ctx t az e ns ls).1.low_energy_frames = ctx.low_energy_frames ∧
    (StateMachine.update M ctx t az e ns ls).2 = none := by
  simp [StateMachine.update, trackPeak, overrideStep, chainStep, lockedStep, orOpt,
    hstate, haz, not_le.mpr haz]

/-- Witness for the amended C1 on the reachable LOCKED context ctxC1. -/
theorem locked_serve_transition_witness :
    ctxC1.state = GameState.LOCKED ∧ (0 : ℤ) < M1.cfg.min_occupied_zones ∧
    (StateMachine.update M1 ctxC1 4 0 0 1 1).1.state = GameState.PROBATION ∧
    (StateMachine.update M1 ctxC1 4 0 0 1 1).1.serve_time = 4 :=
  ⟨by with_unfolding_all decide, by with_unfolding_all decide,
   (locked_serve_transition M1 ctxC1 4 0 0 1 1 (by with_unfolding_all decide)
     (by with_unfolding_all decide)).1,
   (locked_serve_transition M1 ctxC1 4 0 0 1 1 (by with_unfolding_all decide)
     (by with_unfolding_all decide)).2.1⟩

/-- C2 is refuted on the empty-baseline clause: on the reachable RALLY context
ctxC2 the force cut fires, jumps to LOCKED — and the LOCKED branch of the same
call appends the current smoothed energy, so the baseline list ends the call
as [100], not empty. -/
theorem force_cut_counterexample :
    ctxC2.state = GameState.RALLY ∧
    M1.cfg.min_occupied_zones ≤ 2 ∧
    M1.frames_override_needed ≤ ctxC2.frames_held + 1 ∧
    (updateClips M1 ctxC2 [] 3 2 100 1 1).1.state = GameState.LOCKED ∧
    (updateClips M1 ctxC2 [] 3 2 100 1 1).1.baseline_readings = [100] ∧
    (updateClips M1 ctxC2 [] 3 2 100 1 1).1.baseline_readings ≠ [] := by
  with_unfolding_all decide

/-- C2 (amended): in RALLY, once the held-frame counter accumulated by
logic_step reaches the one-second frame threshold with occupancy at or above
the minimum, the same call closes the clip with end = timestamp − 1.0,
classifies and stores it, and leaves the machine in LOCKED with the held-frame
counter pre-set to the hold-satisfied value and the baseline list holding
exactly the current smoothed energy (appended by the LOCKED branch of the same
call); if occupancy is below the minimum the held-frame counter is reset to
zero, and unless the sustained-low-energy cut fires in that same call the
state, clip list and returned clip are unchanged. -/
theorem force_cut_to_locked (M : StateMachine) (ctx : StateMachineContext)
    (clips : List ClipInfo) (t : ℚ) (az : ℤ) (e : ℚ) (ns ls : ℤ)
    (hstate : ctx.state = GameState.RALLY) :
    (M.cfg.min_occupied_zones ≤ az → M.frames_override_needed ≤ ctx.frames_held + ls →
      (updateClips M ctx clips t az e ns ls).1.state = GameState.LOCKED ∧
      (updateClips M ctx clips t az e ns ls).1.frames_held = M.frames_start_needed ∧
      (updateClips M ctx clips t az e ns ls).1.baseline_readings = [e] ∧
      (updateClips M ctx clips t az e ns ls).2.2 =
        some (saveClip M.cfg
          { ctx with clip_peak_energy := max ctx.clip_peak_energy e
                     frames_held := ctx.frames_held + ls } (t - 1)) ∧
      (updateClips M ctx clips t az e ns ls).2.1 =
        clips ++ [saveClip M.cfg
          { ctx with clip_peak_energy := max ctx.clip_peak_energy e
                     frames_held := ctx.frames_held + ls } (t - 1)] ∧
      (saveClip M.cfg
        { ctx with clip_peak_energy := max ctx.clip_peak_energy e
                   frames_held := ctx.frames_held + ls } (t - 1)).end_ = t - 1) ∧
    (az < M.cfg.min_occupied_zones →
      (updateClips M ctx clips t az e ns ls).1.frames_held = 0 ∧
      ((updateClips M ctx clips t az e ns ls).1.low_energy_frames < M.frames_end_needed →
        (updateClips M ctx clips t az e ns ls).1.state = GameState.RALLY ∧
        (updateClips M ctx clips t az e ns ls).2.2 = none ∧
        (updateClips M ctx clips t az e ns ls).2.1 = clips)) := by
  constructor
  · intro h1 h2
    have hu : StateMachine.update M ctx t az e ns ls =
        ({ ctx with state := GameState.LOCKED
                    frames_held := M.frames_start_needed
                    clip_peak_energy := max ctx.clip_peak_energy e
                    baseline_readings := [e] },
         some (saveClip M.cfg
           { ctx with frames_held := ctx.frames_held + ls
                      clip_peak_energy := max ctx.clip_peak_energy e } (t - 1))) := by
      rw [update_rally_forcecut_eq M ctx t az e ns ls hstate h1 h2,
        lockedStep_hold M _ t az e (not_lt.mpr h1)]
      rfl
    rw [updateClips_eq_some M ctx clips t az e ns ls _ _ hu]
    exact ⟨rfl, rfl, rfl, rfl, rfl, rfl⟩
  · intro h3
    rcases rallyStep_cases M
        { ctx with frames_held := 0, clip_peak_energy := max ctx.clip_peak_energy e }
        t e ns ls with ⟨v, hv, hr⟩ | ⟨v, hv, hr⟩
    · have hu : StateMachine.update M ctx t az e ns ls = _ :=
        (update_rally_noarm_eq M ctx t az e ns ls hstate h3).trans hr
      rw [updateClips_eq_some M ctx clips t az e ns ls _ _ hu]
      refine ⟨rfl, ?_⟩
      intro h4
      exact absurd hv (not_le.mpr (by simpa using h4))
    · have hu : StateMachine.update M ctx t az e ns ls = _ :=
        (update_rally_noarm_eq M ctx t az e ns ls hstate h3).trans hr
      rw [updateClips_eq_none M ctx clips t az e ns ls _ hu]
      exact ⟨rfl, fun _ => ⟨hstate, rfl, rfl⟩⟩

/-- Witness for the amended C2 on the reachable RALLY context ctxC2. -/
theorem force_cut_to_locked_witness :
    ctxC2.state = GameState.RALLY ∧
    (updateClips M1 ctxC2 [] 3 2 100 1 1).1.state = GameState.LOCKED ∧
    (updateClips M1 ctxC2 [] 3 2 100 1 1).1.frames_held = M1.frames_start_needed ∧
    (updateClips M1 ctxC2 [] 3 2 100 1 1).1.baseline_readings = [100] :=
  ⟨by with_unfolding_all decide,
   ((force_cut_to_locked M1 ctxC2 [] 3 2 100 1 1 (by with_unfolding_all decide)).1
     (by with_unfolding_all decide) (by with_unfolding_all decide)).1,
   ((force_cut_to_locked M1 ctxC2 [] 3 2 100 1 1 (by with_unfolding_all decide)).1
     (by with_unfolding_all decide) (by with_unfolding_all decide)).2.1,
   ((force_cut_to_locked M1 ctxC2 [] 3 2 100 1 1 (by with_unfolding_all decide)).1
     (by with_unfolding_all decide) (by with_unfolding_all decide)).2.2.1⟩

/-- C7 is refuted on the reset-to-zero clause: on the reachable RALLY context
ctxC7 a zero-skeleton frame that also triggers the force cut leaves the
low-energy counter at its old value 1 instead of resetting it to zero. -/
theorem occlusion_shield_counterexample :
    ctxC7.state = GameState.RALLY ∧ 0 < M2.frames_end_needed ∧
    (StateMachine.update M2 ctxC7 4 2 0 0 1).1.low_energy_frames = 1 ∧
    (StateMachine.update M2 ctxC7 4 2 0 0 1).1.low_energy_frames ≠ 0 := by
  with_unfolding_all decide

/-- C7 (amended): in RALLY, a zero-skeleton update never increases the
low-energy counter — it resets it to zero, except when the force-cut override
fires in the same call, in which case the counter is left unchanged — and,
when the low-energy frame threshold is positive, a clip can close in such a
call only through the force-cut path (never the sustained-low-energy path). -/
theorem occlusion_shield (M : StateMachine) (ctx : StateMachineContext)
    (t : ℚ) (az : ℤ) (e : ℚ) (ls : ℤ)
    (hstate : ctx.state = GameState.RALLY) (hend : 0 < M.frames_end_needed) :
    ((StateMachine.update M ctx t az e 0 ls).1.low_energy_frames = 0 ∨
      ((M.cfg.min_occupied_zones ≤ az ∧ M.frames_override_needed ≤ ctx.frames_held + ls) ∧
       (StateMachine.update M ctx t az e 0 ls).1.low_energy_frames = ctx.low_energy_frames)) ∧
    (∀ c, (StateMachine.update M ctx t az e 0 ls).2 = some c →
      M.cfg.min_occupied_zones ≤ az ∧ M.frames_override_needed ≤ ctx.frames_held + ls) := by
  by_cases haz : M.cfg.min_occupied_zones ≤ az
  · by_cases hov : M.frames_override_needed ≤ ctx.frames_held + ls
    · rw [update_rally_forcecut_eq M ctx t az e 0 ls hstate haz hov,
        lockedStep_hold M _ t az e (not_lt.mpr haz)]
      exact ⟨Or.inr ⟨⟨haz, hov⟩, rfl⟩, fun c _ => ⟨haz, hov⟩⟩
    · rw [update_rally_arm_eq M ctx t az e 0 ls hstate haz (not_le.mp hov),
        rallyStep_ns0 M _ t e ls hend]
      exact ⟨Or.inl rfl, fun c hc => by cases hc⟩
  · rw [update_rally_noarm_eq M ctx t az e 0 ls hstate (not_le.mp haz),
      rallyStep_ns0 M _ t e ls hend]
    exact ⟨Or.inl rfl, fun c hc => by cases hc⟩

/-- A saved clip is well shaped whenever its end lies beyond the candidate
start time. -/
theorem saveClip_ok (cfg : Config) (ctx : StateMachineContext) (et : ℚ)
    (hpre : 0 ≤ cfg.pre_serve_buffer) (hs : 0 ≤ ctx.serve_time)
    (hlt : ctx.serve_time < et) :
    ClipOk cfg (saveClip cfg ctx et) := by
  refine ⟨⟨ctx.serve_time, hs, rfl⟩, ?_⟩
  show max 0 (ctx.serve_time - cfg.pre_serve_buffer) < et
  exact max_lt (lt_of_le_of_lt hs hlt) (by linarith)

/-- The SEARCHING branch never touches the candidate start time and only ever
moves to LOCKED. -/
theorem searchingStep_inv (M : StateMachine) (ctx : StateMachineContext)
    (az : ℤ) (e : ℚ) (ls : ℤ) :
    (searchingStep M ctx az e ls).serve_time = ctx.serve_time ∧
    ((searchingStep M ctx az e ls).state = ctx.state ∨
     (searchingStep M ctx az e ls).state = GameState.LOCKED) := by
  simp only [searchingStep]
  split_ifs with h1 h2
  · exact ⟨rfl, Or.inr rfl⟩
  · exact ⟨rfl, Or.inl rfl⟩
  · exact ⟨rfl, Or.inl rfl⟩

/-- The LOCKED branch either holds (start time unchanged) or serves into
PROBATION with the current timestamp as candidate start. -/
theorem lockedStep_inv (M : StateMachine) (ctx : StateMachineContext)
    (t : ℚ) (az : ℤ) (e : ℚ) :
    ((lockedStep M ctx t az e).state = ctx.state ∧
     (lockedStep M ctx t az e).serve_time = ctx.serve_time) ∨
    ((lockedStep M ctx t az e).state = GameState.PROBATION ∧
     (lockedStep M ctx t az e).serve_time = t) := by
  simp only [lockedStep]
  split_ifs with h
  · exact Or.inr ⟨rfl, rfl⟩
  · exact Or.inl ⟨rfl, rfl⟩

/-- The PROBATION branch keeps the candidate start time; it promotes to RALLY
or cuts a clip only after the minimum point duration has elapsed, and any cut
clip carries the buffered start and end times. -/
theorem probationStep_inv (M : StateMachine) (ctx : StateMachineContext)
    (t e : ℚ) (ls : ℤ) :
    (probationStep M ctx t e ls).1.serve_time = ctx.serve_time ∧
    ((probationStep M ctx t e ls).1.state = ctx.state ∨
     (probationStep M ctx t e ls).1.state = GameState.SEARCHING ∨
     ((probationStep M ctx t e ls).1.state = GameState.RALLY ∧
      M.cfg.min_point_duration ≤ t - ctx.serve_time)) ∧
    ∀ c, (probationStep M ctx t e ls).2 = some c →
      M.cfg.min_point_duration ≤ t - ctx.serve_time ∧
      c.start = max 0 (ctx.serve_time - M.cfg.pre_serve_buffer) ∧
      c.end_ = t + M.cfg.post_point_buffer := by
  simp only [probationStep]
  by_cases h1 : M.cfg.min_point_duration ≤ t - ctx.serve_time
  · rw [if_pos h1]
    by_cases h2 : ctx.dynamic_threshold < e
    · rw [if_pos h2]
      exact ⟨rfl, Or.inr (Or.inr ⟨rfl, h1⟩), fun c hc => by simp at hc⟩
    · rw [if_neg h2]
      by_cases h3 : M.frames_end_needed ≤
          (if e < ctx.dynamic_threshold then ctx.low_energy_frames + ls else 0)
      · rw [if_pos h3]
        refine ⟨rfl, Or.inr (Or.inl rfl), fun c hc => ?_⟩
        obtain rfl := Option.some.inj hc
        exact ⟨h1, rfl, rfl⟩
      · rw [if_neg h3]
        exact ⟨rfl, Or.inl rfl, fun c hc => by simp at hc⟩
  · rw [if_neg h1]
    exact ⟨rfl, Or.inl rfl, fun c hc => by simp at hc⟩

/-- The RALLY branch preserves the trace invariant and only cuts well-shaped
clips, given that the minimum point duration already elapsed by time t. -/
theorem rallyStep_inv (M : StateMachine) (B : StateMachineContext) (t e : ℚ) (ns ls : ℤ)
    (hpre : 0 ≤ M.cfg.pre_serve_buffer)
    (hpp : 0 < M.cfg.min_point_duration + M.cfg.post_point_buffer)
    (hBs : 0 ≤ B.serve_time)
    (hBr : B.serve_time + M.cfg.min_point_duration ≤ t) :
    (0 ≤ t → ClipInv M.cfg (rallyStep M B t e ns ls).1 t) ∧
    ∀ c, (rallyStep M B t e ns ls).2 = some c → ClipOk M.cfg c := by
  rcases rallyStep_cases M B t e ns ls with ⟨v, hv, hr⟩ | ⟨v, hv, hr⟩
  · rw [hr]
    dsimp only
    constructor
    · intro ht0
      refine ⟨ht0, hBs, ?_⟩
      intro hrr
      simp at hrr
    · intro c hc
      obtain rfl := Option.some.inj hc
      refine saveClip_ok M.cfg _ _ hpre hBs ?_
      show B.serve_time < t + M.cfg.post_point_buffer
      linarith
  · rw [hr]
    dsimp only
    constructor
    · intro ht0
      refine ⟨ht0, hBs, ?_⟩
      intro _
      show B.serve_time + M.cfg.min_point_duration ≤ t
      exact hBr
    · intro c hc
      simp at hc

/-- One update step preserves the trace invariant and only emits well-shaped
clips, for configurations with a nonnegative pre-serve buffer, positive
min_point_duration + post_point_buffer, and min_point_duration above one
second (all satisfied by the defaults 4, 2.5 − 1, 2.5). -/
theorem stepInv (M : StateMachine)
    (hpre : 0 ≤ M.cfg.pre_serve_buffer)
    (hpp : 0 < M.cfg.min_point_duration + M.cfg.post_point_buffer)
    (hmpd : 1 < M.cfg.min_point_duration)
    (ctx : StateMachineContext) (tlow t : ℚ) (az : ℤ) (e : ℚ) (ns ls : ℤ)
    (hinv : ClipInv M.cfg ctx tlow) (ht : tlow ≤ t) :
    ClipInv M.cfg (StateMachine.update M ctx t az e ns ls).1 t ∧
    ∀ c, (StateMachine.update M ctx t az e ns ls).2 = some c → ClipOk M.cfg c := by
  obtain ⟨htl0, hserve, hrally⟩ := hinv
  have ht0 : (0 : ℚ) ≤ t := le_trans htl0 ht
  cases hstate : ctx.state with
  | SEARCHING =>
      rw [update_searching_eq M ctx t az e ns ls hstate]
      dsimp only
      obtain ⟨hs1, hs2⟩ := searchingStep_inv M ctx az e ls
      refine ⟨⟨ht0, ?_, ?_⟩, fun c hc => by simp at hc⟩
      · rw [hs1]; exact hserve
      · intro hr
        rcases hs2 with h | h
        · rw [h, hstate] at hr; cases hr
        · rw [h] at hr; cases hr
  | LOCKED =>
      rw [update_locked_eq M ctx t az e ns ls hstate]
      dsimp only
      rcases lockedStep_inv M ctx t az e with ⟨h1, h2⟩ | ⟨h1, h2⟩
      · refine ⟨⟨ht0, ?_, ?_⟩, fun c hc => by simp at hc⟩
        · rw [h2]; exact hserve
        · intro hr; rw [h1, hstate] at hr; cases hr
      · refine ⟨⟨ht0, ?_, ?_⟩, fun c hc => by simp at hc⟩
        · rw [h2]; exact ht0
        · intro hr; rw [h1] at hr; cases hr
  | PROBATION =>
      rw [update_probation_eq M ctx t az e ns ls hstate]
      have hsv : ({ ctx with clip_peak_energy := max ctx.clip_peak_energy e } :
          StateMachineContext).serve_time = ctx.serve_time := rfl
      have hstt : ({ ctx with clip_peak_energy := max ctx.clip_peak_energy e } :
          StateMachineContext).state = ctx.state := rfl
      obtain ⟨hp1, hp2, hp3⟩ := probationStep_inv M
        { ctx with clip_peak_energy := max ctx.clip_peak_energy e } t e ls
      rw [hsv] at hp1
      simp only [hsv] at hp3
      refine ⟨⟨ht0, by rw [hp1]; exact hserve, ?_⟩, ?_⟩
      · intro hr
        rcases hp2 with h | h | ⟨h, hd⟩
        · rw [h, hstt, hstate] at hr; cases hr
        · rw [h] at hr; cases hr
        · rw [hsv] at hd
          rw [hp1]
          linarith
      · intro c hc
        obtain ⟨hd, hcs, hce⟩ := hp3 c hc
        refine ⟨⟨ctx.serve_time, hserve, hcs⟩, ?_⟩
        rw [hcs, hce]
        exact max_lt (by linarith) (by linarith)
  | RALLY =>
      have hR : ctx.serve_time + M.cfg.min_point_duration ≤ tlow := hrally hstate
      by_cases haz : M.cfg.min_occupied_zones ≤ az
      · by_cases hov : M.frames_override_needed ≤ ctx.frames_held + ls
        · rw [update_rally_forcecut_eq M ctx t az e ns ls hstate haz hov]
          dsimp only
          constructor
          · rcases lockedStep_inv M
                { ctx with state := GameState.LOCKED
                           frames_held := M.frames_start_needed
                           clip_peak_energy := max ctx.clip_peak_energy e
                           baseline_readings := [] } t az e with ⟨h1, h2⟩ | ⟨h1, h2⟩
            · refine ⟨ht0, ?_, ?_⟩
              · rw [h2]; exact hserve
              · intro hr; rw [h1] at hr; simp at hr
            · refine ⟨ht0, ?_, ?_⟩
              · rw [h2]; exact ht0
              · intro hr; rw [h1] at hr; cases hr
          · intro c hc
            obtain rfl := Option.some.inj hc
            refine saveClip_ok M.cfg _ _ hpre hserve ?_
            show ctx.serve_time < t - 1
            linarith
        · rw [update_rally_arm_eq M ctx t az e ns ls hstate haz (not_le.mp hov)]
          obtain ⟨hri, hrc⟩ := rallyStep_inv M
            { ctx with frames_held := ctx.frames_held + ls
                       clip_peak_energy := max ctx.clip_peak_energy e } t e ns ls
            hpre hpp hserve (show ctx.serve_time + M.cfg.min_point_duration ≤ t by linarith)
          exact ⟨hri ht0, hrc⟩
      · rw [update_rally_noarm_eq M ctx t az e ns ls hstate (not_le.mp haz)]
        obtain ⟨hri, hrc⟩ := rallyStep_inv M
          { ctx with frames_held := 0
                     clip_peak_energy := max ctx.clip_peak_energy e } t e ns ls
          hpre hpp hserve (show ctx.serve_time + M.cfg.min_point_duration ≤ t by linarith)
        exact ⟨hri ht0, hrc⟩

/-- Running any frame list with nondecreasing timestamps from an
invariant-satisfying state only ever accumulates well-shaped clips. -/
theorem runFramesOk (M : StateMachine)
    (hpre : 0 ≤ M.cfg.pre_serve_buffer)
    (hpp : 0 < M.cfg.min_point_duration + M.cfg.post_point_buffer)
    (hmpd : 1 < M.cfg.min_point_duration) :
    ∀ (fs : List Frame) (ctx : StateMachineContext) (clips : List ClipInfo) (tlow : ℚ),
      ClipInv M.cfg ctx tlow → timesFrom tlow fs → (∀ c ∈ clips, ClipOk M.cfg c) →
      ∀ c ∈ (runFrames M fs (ctx, clips)).2, ClipOk M.cfg c := by
  intro fs
  induction fs with
  | nil =>
      intro ctx clips tlow hinv hts hok
      simpa [runFrames] using hok
  | cons f rest ih =>
      intro ctx clips tlow hinv hts hok
      obtain ⟨htf, hts'⟩ := hts
      obtain ⟨hinv', hclip⟩ := stepInv M hpre hpp hmpd ctx tlow f.timestamp f.active_zones
        f.smooth_energy f.num_skeletons f.logic_step hinv htf
      cases hopt : (StateMachine.update M ctx f.timestamp f.active_zones f.smooth_energy
          f.num_skeletons f.logic_step).2 with
      | none =>
          have hu : StateMachine.update M ctx f.timestamp f.active_zones f.smooth_energy
              f.num_skeletons f.logic_step =
              ((StateMachine.update M ctx f.timestamp f.active_zones f.smooth_energy
                f.num_skeletons f.logic_step).1, none) := by
            rw [← hopt]
          have hrw : runFrames M (f :: rest) (ctx, clips) =
              runFrames M rest ((StateMachine.update M ctx f.timestamp f.active_zones
                f.smooth_energy f.num_skeletons f.logic_step).1, clips) := by
            simp only [runFrames, updateClips_eq_none M ctx clips f.timestamp f.active_zones
              f.smooth_energy f.num_skeletons f.logic_step _ hu]
          rw [hrw]
          exact ih _ _ _ hinv' hts' hok
      | some c0 =>
          have hu : StateMachine.update M ctx f.timestamp f.active_zones f.smooth_energy
              f.num_skeletons f.logic_step =
              ((StateMachine.update M ctx f.timestamp f.active_zones f.smooth_energy
                f.num_skeletons f.logic_step).1, some c0) := by
            rw [← hopt]
          have hrw : runFrames M (f :: rest) (ctx, clips) =
              runFrames M rest ((StateMachine.update M ctx f.timestamp f.active_zones
                f.smooth_energy f.num_skeletons f.logic_step).1, clips ++ [c0]) := by
            simp only [runFrames, updateClips_eq_some M ctx clips f.timestamp f.active_zones
              f.smooth_energy f.num_skeletons f.logic_step _ c0 hu]
          rw [hrw]
          refine ih _ _ _ hinv' hts' ?_
          intro c' hc'
          rcases List.mem_append.mp hc' with h | h
          · exact hok c' h
          · rw [List.mem_singleton] at h
            subst h
            exact hclip c' hopt

/-- C5: every clip the state machine emits has start = max(0, candidate start
time − pre_serve_buffer), and on every frame sequence with nondecreasing
nonnegative timestamps every emitted clip satisfies start < end — under the
configuration conditions (met by the defaults) that the pre-serve buffer is
nonnegative, min_point_duration + post_point_buffer is positive, and
min_point_duration exceeds the one-second force-cut backdate. -/
theorem clip_buffer_invariant (M : StateMachine)
    (hpre : 0 ≤ M.cfg.pre_serve_buffer)
    (hpp : 0 < M.cfg.min_point_duration + M.cfg.post_point_buffer)
    (hmpd : 1 < M.cfg.min_point_duration)
    (fs : List Frame) (hfs : timesFrom 0 fs) :
    (∀ (ctx : StateMachineContext) (et : ℚ),
      (saveClip M.cfg ctx et).start = max 0 (ctx.serve_time - M.cfg.pre_serve_buffer)) ∧
    ∀ c ∈ (runFrames M fs (initCtx, [])).2, ClipOk M.cfg c := by
  refine ⟨fun ctx et => rfl, ?_⟩
  refine runFramesOk M hpre hpp hmpd fs initCtx [] 0 ⟨le_refl 0, le_refl 0, ?_⟩ hfs
    (by simp)
  intro h
  cases h

/-- Witness for C5 on the default configuration and the end-to-end trace
framesC5, which emits the clip (0, 5, Rally, High, 100). -/
theorem clip_buffer_invariant_witness :
    (0 : ℚ) ≤ MD.cfg.pre_serve_buffer ∧
    0 < MD.cfg.min_point_duration + MD.cfg.post_point_buffer ∧
    1 < MD.cfg.min_point_duration ∧
    ClipOk MD.cfg clipC5 :=
  ⟨by norm_num [MD, defaultConfig], by norm_num [MD, defaultConfig],
   by norm_num [MD, defaultConfig],
   (clip_buffer_invariant MD (by norm_num [MD, defaultConfig])
     (by norm_num [MD, defaultConfig]) (by norm_num [MD, defaultConfig]) framesC5
     (by norm_num [timesFrom, framesC5])).2 clipC5 (by with_unfolding_all decide)⟩

/-- Witness for the amended C7 on ctxC7 with a non-force-cut zero-skeleton
frame: the low-energy counter is reset to zero. -/
theorem occlusion_shield_witness :
    ctxC7.state = GameState.RALLY ∧ 0 < M2.frames_end_needed ∧
    ((StateMachine.update M2 ctxC7 4 0 5 0 1).1.low_energy_frames = 0 ∨
      ((M2.cfg.min_occupied_zones ≤ 0 ∧ M2.frames_override_needed ≤ ctxC7.frames_held + 1) ∧
       (StateMachine.update M2 ctxC7 4 0 5 0 1).1.low_energy_frames = ctxC7.low_energy_frames)) :=
  ⟨by with_unfolding_all decide, by with_unfolding_all decide,
   (occlusion_shield M2 ctxC7 4 0 5 1 (by with_unfolding_all decide)
     (by with_unfolding_all decide)).1⟩

end Cutserve
